import Mathlib

/-!
# Verification of the pluse autoscaler decision engine

A shallow embedding, in Lean 4, of the decision-engine components of the
`pluse` repository, together with proofs and refutations of the frozen
claims about its specification.

Embedded components:
* `src/aggregator/aggregator.py` — `classify_event`;
* `src/subscribers/autoscaler/metrics_window.py` — `MetricsWindow`;
* `src/subscribers/autoscaler/memory_optimizer.py` — `MemoryOptimizer`
  (`parse_memory`, `format_memory`, `adjust_memory_limits`);
* `src/subscribers/autoscaler/autoscaler.py` — `execute_scale` and the
  node-health stage of `should_scale`;
* `src/subscribers/autoscaler/node_monitor.py` — `NodeMonitor.check_node_health`.

Modelling conventions:
* Python numbers are embedded as `ℚ` (the repository's arithmetic on these
  values stays within ranges where IEEE doubles behave like exact rationals;
  where a float operation could differ from exact rational arithmetic the
  definition carries a comment).
* Python functions that can raise are embedded as `Option`-returning
  functions, `none` marking the raise.
* Wall-clock instants (`now_ist_dt()`) are embedded as `ℚ` seconds;
  subtraction of instants models `(a - b).total_seconds()`.
* Python `str(float)` rendering inside f-strings is idealised as `toString`
  on `ℚ`; no claim depends on the exact rendering of a number.
-/

/-! ## Configuration constants (src/subscribers/autoscaler/config.py) -/

def MIN_REPLICAS : ℕ := 2
def MAX_REPLICAS : ℕ := 8
def COOLDOWN_SECONDS : ℚ := 60
def NODE_CAPACITY_LOSS_THRESHOLD : ℚ := 1/4

/-! ## Event classifier (src/aggregator/aggregator.py, `classify_event`) -/

/-! ### Character-level string helpers

Python's `str` operations are modelled directly on the character lists of
Lean strings, so that every definition reduces by kernel computation. -/

/-- Python substring containment: `needle in hay`. -/
def containsSeq : List Char → List Char → Bool
  | needle, [] => needle.isEmpty
  | needle, c :: t => ((c :: t).take needle.length == needle) || containsSeq needle t

/-- `needle in hay` on strings. -/
def strContains (hay needle : String) : Bool := containsSeq needle.data hay.data

/-- Python `str.strip()` (ASCII/unicode whitespace at both ends). -/
def pyStrip (s : String) : String :=
  ⟨((s.data.dropWhile Char.isWhitespace).reverse.dropWhile Char.isWhitespace).reverse⟩

/-- Python `s.endswith(t)`, with `t` given as a character list. -/
def strEndsWith (s : String) (t : List Char) : Bool :=
  s.data.drop (s.data.length - t.length) == t

/-- Python slicing `s[:-n]`. -/
def strDropRight (s : String) (n : ℕ) : String := ⟨s.data.take (s.data.length - n)⟩

/-- Python `int(s)` restricted to plain digit strings (the only shape this
repository feeds it); anything else — including a sign, whitespace or a
suffix letter — is modelled as the `ValueError` branch, `none`. -/
def parseNatChars (l : List Char) : Option ℕ :=
  if !l.isEmpty && l.all Char.isDigit then
    some (l.foldl (fun a c => 10 * a + (c.toNat - 48)) 0)
  else none

/-- Split a character list at every `'.'` (Python `s.split(".")`). -/
def splitOnDot : List Char → List (List Char)
  | [] => [[]]
  | c :: rest =>
    let r := splitOnDot rest
    if c = '.' then [] :: r
    else
      match r with
      | [] => [[c]]
      | h :: t => (c :: h) :: t

/-- The metric fields read by the classifier and the window; `none` models an
absent key, so that `m.get(k, 0)` becomes `getNum`. -/
structure Metrics where
  cpu : Option ℚ
  memory : Option ℚ
  error_rate : Option ℚ
  net_latency_ms : Option ℚ
deriving Repr, DecidableEq

/-- `m.get(key, 0)`. -/
def getNum : Option ℚ → ℚ
  | none => 0
  | some q => q

/-- The fields of an incoming payload that `classify_event` reads. -/
structure Payload where
  node_id : Option String
  metrics : Option Metrics
  log : Option String
deriving Repr, DecidableEq

/-- The event dictionary built by `classify_event` (the wall-clock
`timestamp` field is omitted; no claim concerns it).  For log events the
source never sets a `reasons` key; this is modelled as `reasons = []`. -/
structure Event where
  source : String
  node_id : String
  event_type : String
  severity : String
  reasons : List String
  metrics : Option Metrics
  log : Option String
deriving Repr, DecidableEq

/-- First classifier rule: `if cpu > 90: ... elif cpu > 75: ...`.  The pair
is the mutable `(severity, reasons)` state of the source. -/
def cpuRule (cpu : ℚ) (p : String × List String) : String × List String :=
  if cpu > 90 then ("CRITICAL", p.2 ++ ["cpu>" ++ toString cpu])
  else if cpu > 75 then ("WARNING", p.2 ++ ["cpu>" ++ toString cpu])
  else p

/-- Second classifier rule: `if mem > 90: severity = "CRITICAL"`. -/
def memRule (mem : ℚ) (p : String × List String) : String × List String :=
  if mem > 90 then ("CRITICAL", p.2 ++ ["mem>" ++ toString mem])
  else p

/-- Third classifier rule: `if error_rate > 8: ... elif error_rate > 5: ...`. -/
def errRule (er : ℚ) (p : String × List String) : String × List String :=
  if er > 8 then ("CRITICAL", p.2 ++ ["errors>" ++ toString er ++ "%"])
  else if er > 5 then
    ((if p.1 = "INFO" then "WARNING" else p.1),
      p.2 ++ ["errors>" ++ toString er ++ "%"])
  else p

/-- Fourth classifier rule: `if latency > 400: ...`. -/
def latRule (lat : ℚ) (p : String × List String) : String × List String :=
  if lat > 400 then
    ((if p.1 = "INFO" then "WARNING" else p.1),
      p.2 ++ ["latency>" ++ toString lat ++ "ms"])
  else p

/-- The metrics branch of `classify_event`: the four rules applied in source
order to the initial state `("INFO", [])`. -/
def classifyMetricsPair (m : Metrics) : String × List String :=
  latRule (getNum m.net_latency_ms)
    (errRule (getNum m.error_rate)
      (memRule (getNum m.memory)
        (cpuRule (getNum m.cpu) ("INFO", []))))

/-- `classify_event(data)`.  Returns `none` exactly when the source raises:
with no `metrics` key and no `log` key, `"CRITICAL" in None` is a
`TypeError`. -/
def classify_event (data : Payload) : Option Event :=
  let nodeId := data.node_id.getD "unknown"
  match data.metrics with
  | some m =>
    let p := classifyMetricsPair m
    some { source := "aggregator", node_id := nodeId, event_type := "metrics_event",
           severity := p.1, reasons := p.2, metrics := some m, log := none }
  | none =>
    match data.log with
    | none => none
    | some lg =>
      some { source := "aggregator", node_id := nodeId, event_type := "log_event",
             severity := if strContains lg "CRITICAL" then "CRITICAL" else "ERROR",
             reasons := [], metrics := none, log := some lg }

/-- Severity order `INFO < WARNING < CRITICAL` as a numeric rank (any other
string ranks with `INFO`). -/
def sevRank : String → ℕ := fun s =>
  if s = "CRITICAL" then 2 else if s = "WARNING" then 1 else 0

/-! ## Rolling metrics window (src/subscribers/autoscaler/metrics_window.py) -/

/-- One stored window entry (the wall-clock `timestamp` field is omitted;
`get_stats` never reads it). -/
structure Sample where
  cpu : ℚ
  memory : ℚ
  latency : ℚ
  error_rate : ℚ
deriving Repr, DecidableEq

def WINDOW_SIZE : ℕ := 5

/-- `MetricsWindow.add`: append and drop the oldest beyond the deque's
`maxlen` (5). -/
def windowAdd (data : List Sample) (m : Metrics) : List Sample :=
  let d := data ++ [{ cpu := getNum m.cpu, memory := getNum m.memory,
                      latency := getNum m.net_latency_ms, error_rate := getNum m.error_rate }]
  d.drop (d.length - WINDOW_SIZE)

/-- `MetricsWindow._calculate_percentile`.  `sorted(values)` is the
ascending sort; `index = int(len(sorted_vals) * percentile / 100)`
truncates the (exactly representable) float quotient, i.e. `Nat`
division, and the read is clamped to the last element.  `len(sorted_vals)
= values.length` since sorting preserves length. -/
def calculatePercentile (values : List ℚ) (percentile : ℕ) : ℚ :=
  if values = [] then 0
  else (values.insertionSort (· ≤ ·)).getD
    (min (values.length * percentile / 100) (values.length - 1)) 0

/-- Round-half-to-even at integer precision: the tie-breaking rule of
Python's builtin `round`, under the exact-rational idealisation of floats. -/
def roundHalfEven (q : ℚ) : ℤ :=
  if Int.fract q < 1/2 then ⌊q⌋
  else if 1/2 < Int.fract q then ⌊q⌋ + 1
  else if Even ⌊q⌋ then ⌊q⌋ else ⌊q⌋ + 1

/-- Python `round(x, 2)`. -/
def round2 (q : ℚ) : ℚ := (roundHalfEven (q * 100) : ℚ) / 100

/-- The dictionary returned by `MetricsWindow.get_stats` on non-empty data. -/
structure WindowStats where
  avg_cpu : ℚ
  avg_memory : ℚ
  max_cpu : ℚ
  latency_p90 : ℚ
  latency_p95 : ℚ
  latency_p99 : ℚ
  avg_error_rate : ℚ
  trend : String
  spike_detected : Bool
  count : ℕ
deriving Repr, DecidableEq

/-- `MetricsWindow.get_stats`.  `none` models the bare `{"count": 0}`
dictionary returned on an empty window (it carries none of the other keys);
no claim inspects that case beyond emptiness. -/
def getStats (data : List Sample) : Option WindowStats :=
  if data = [] then none
  else
    let cpu_values := data.map Sample.cpu
    let mem_values := data.map Sample.memory
    let latency_values := data.map Sample.latency
    let error_values := data.map Sample.error_rate
    let trend :=
      if cpu_values.length ≥ 4 then
        -- recent = mean of cpu_values[-2:], older = mean of cpu_values[:-2]
        let recent_avg := (cpu_values.drop (cpu_values.length - 2)).sum / 2
        let older := cpu_values.take (cpu_values.length - 2)
        let older_avg := older.sum / (older.length : ℚ)
        if recent_avg > older_avg + 20 then "spiking"
        else if recent_avg > older_avg + 10 then "increasing"
        else if recent_avg < older_avg - 10 then "decreasing"
        else "stable"
      else "stable"
    some { avg_cpu := round2 (cpu_values.sum / (cpu_values.length : ℚ)),
           avg_memory := round2 (mem_values.sum / (mem_values.length : ℚ)),
           max_cpu := cpu_values.maximum.getD 0,
           latency_p90 := round2 (calculatePercentile latency_values 90),
           latency_p95 := round2 (calculatePercentile latency_values 95),
           latency_p99 := round2 (calculatePercentile latency_values 99),
           avg_error_rate := round2 (error_values.sum / (error_values.length : ℚ)),
           trend := trend,
           spike_detected := trend = "spiking",
           count := data.length }

/-! ## Replica controller (src/subscribers/autoscaler/autoscaler.py) -/

/-- The state `execute_scale` reads and writes: the module-global
`last_scale_time` and the target deployment's `spec.replicas` as stored in
the cluster (`none` = field unset). -/
structure AutoscalerState where
  lastScaleTime : Option ℚ
  replicas : Option ℕ
deriving Repr, DecidableEq

/-- `dep.spec.replicas or MIN_REPLICAS`: Python `or` replaces both `None`
and `0` by the fallback. -/
def pyOrMinReplicas (r : Option ℕ) : ℕ :=
  match r with
  | none => MIN_REPLICAS
  | some n => if n = 0 then MIN_REPLICAS else n

/-- The cooldown guard at the top of `execute_scale`:
`if last_scale_time and not bypass_cooldown: if elapsed < COOLDOWN_SECONDS:
return False`. -/
def cooldownRejects (lastScaleTime : Option ℚ) (bypass_cooldown : Bool) (now : ℚ) : Bool :=
  match lastScaleTime with
  | none => false
  | some t => !bypass_cooldown && decide (now - t < COOLDOWN_SECONDS)

/-- `execute_scale(action, bypass_cooldown, multiplier)` at wall-clock
instant `now`.  The deployment read and the patch are assumed not to raise;
the boolean result is the source's return value, and a `true` result means
the deployment was patched to the new replica count and `last_scale_time`
was set.  `int(current * (multiplier - 1))` truncates toward zero, which is
the floor since the operand is non-negative on the `multiplier > 1` branch.
`max (current - 1) MIN_REPLICAS` uses truncated subtraction; `current ≥ 1`
always holds (see `pyOrMinReplicas`), so it agrees with Python's `int`
arithmetic. -/
def execute_scale (action : String) (bypass_cooldown : Bool) (multiplier : ℚ)
    (now : ℚ) (st : AutoscalerState) : Bool × AutoscalerState :=
  if cooldownRejects st.lastScaleTime bypass_cooldown now then (false, st)
  else
    let current := pyOrMinReplicas st.replicas
    let new := if action = "up" then
        let inc := if multiplier > 1 then
            max 1 (⌊(current : ℚ) * (multiplier - 1)⌋.toNat)
          else 1
        min (current + inc) MAX_REPLICAS
      else max (current - 1) MIN_REPLICAS
    if new = current then (false, st)
    else (true, { lastScaleTime := some now, replicas := some new })

/-! ## Memory optimiser (src/subscribers/autoscaler/memory_optimizer.py) -/

/-- Python `float(s)` on a plain decimal literal (digits with at most one
dot, no sign/exponent — the only shapes the repository's quantity strings
take), idealised to the exact rational; `none` models `ValueError`. -/
def parseDecimal (s : String) : Option ℚ :=
  match splitOnDot s.data with
  | [i] => (parseNatChars i).map (fun n => (n : ℚ))
  | [i, f] =>
    if i.all Char.isDigit && f.all Char.isDigit && (!i.isEmpty || !f.isEmpty) then
      some (((parseNatChars i).getD 0 : ℚ) + ((parseNatChars f).getD 0 : ℚ) / 10 ^ f.length)
    else none
  | _ => none

/-- `MemoryOptimizer.parse_memory`.  `none` models an uncaught exception
(e.g. `int("1K")` raising `ValueError`); `int(float(x) * unit)` truncates
toward zero, the floor of the non-negative product. -/
def parse_memory (memory_str : String) : Option ℕ :=
  if memory_str = "" then some (256 * 1024 * 1024)
  else
    let s := pyStrip memory_str
    if strEndsWith s ['G', 'i'] then
      (parseDecimal (strDropRight s 2)).map (fun q => (⌊q * (1024 * 1024 * 1024)⌋).toNat)
    else if strEndsWith s ['M', 'i'] then
      (parseDecimal (strDropRight s 2)).map (fun q => (⌊q * (1024 * 1024)⌋).toNat)
    else if strEndsWith s ['K', 'i'] then
      (parseDecimal (strDropRight s 2)).map (fun q => (⌊q * 1024⌋).toNat)
    else parseNatChars s.data

/-- `MemoryOptimizer.format_memory`.  `int(b / unit)` on the float quotient
equals the floor for the byte counts in range, i.e. `Nat` division. -/
def format_memory (bytes_value : ℕ) : String :=
  if bytes_value ≥ 1024 * 1024 * 1024 then
    toString (bytes_value / (1024 * 1024 * 1024)) ++ "Gi"
  else if bytes_value ≥ 1024 * 1024 then
    toString (bytes_value / (1024 * 1024)) ++ "Mi"
  else
    toString (bytes_value / 1024) ++ "Ki"

/-- `current_limit = container.resources.limits.get("memory")` followed by
`if not current_limit: current_limit = "256Mi"` (`none` = key or limits
dict absent; the empty string is also falsy). -/
def limitOrDefault (currentLimitField : Option String) : String :=
  match currentLimitField with
  | none => "256Mi"
  | some s => if s = "" then "256Mi" else s

/-- The limit computation of `MemoryOptimizer.adjust_memory_limits`, given
the first container's current `limits["memory"]` field.  Output `none`
models the enclosing `except` arm (reached if `parse_memory` raises);
otherwise `some (ok, current_limit, new_limit)` is the source's return
triple, and `ok = true` means both `limits.memory` and `requests.memory`
were patched to `new_limit`.  `int(current_bytes * 1.5) = ⌊3·b/2⌋` exactly
for every byte count below `2^52`. -/
def adjust_memory_limits (currentLimitField : Option String) : Option (Bool × String × String) :=
  let current_limit := limitOrDefault currentLimitField
  match parse_memory current_limit with
  | none => none
  | some current_bytes =>
    let new_bytes := 3 * current_bytes / 2
    let max_bytes := 2 * 1024 * 1024 * 1024  -- parse_memory(self.max_memory) = parse_memory("2Gi")
    let new_bytes := if new_bytes > max_bytes then max_bytes else new_bytes
    let new_limit := format_memory new_bytes
    if current_bytes ≥ max_bytes then some (false, current_limit, current_limit)
    else some (true, current_limit, new_limit)

/-! ## Node health monitor (src/subscribers/autoscaler/node_monitor.py) -/

structure NodeCondition where
  type : String
  status : String
deriving Repr, DecidableEq

/-- The fields of a cluster node that `check_node_health` reads. -/
structure NodeInfo where
  name : String
  conditions : List NodeCondition
  unschedulable : Option Bool
  taintKeys : List String
deriving Repr, DecidableEq

/-- The `is_ready` scan: the first condition of type `"Ready"` decides, via
`break`; `False` if none is present. -/
def nodeIsReady (n : NodeInfo) : Bool :=
  match n.conditions.find? (fun c => c.type == "Ready") with
  | some c => c.status == "True"
  | none => false

/-- `not node.spec.unschedulable if node.spec.unschedulable is not None
else True`. -/
def nodeIsSchedulable (n : NodeInfo) : Bool :=
  match n.unschedulable with
  | none => true
  | some u => !u

/-- The taint scan for key `node-scaler.pulse/draining` (an absent taint
list behaves like an empty one). -/
def nodeCordonedByScaler (n : NodeInfo) : Bool :=
  n.taintKeys.contains "node-scaler.pulse/draining"

/-- The per-node health verdict of `check_node_health`. -/
def nodeHealthy (n : NodeInfo) : Bool :=
  if nodeCordonedByScaler n then true
  else if !nodeIsReady n then false
  else if !nodeIsSchedulable n then false
  else true

/-- The monitor's own records: `self.unhealthy_nodes` (dict node name →
first-seen-unhealthy instant, in insertion order) and
`self.quarantined_nodes`. -/
structure NodeMonitorState where
  unhealthyNodes : List (String × ℚ)
  quarantinedNodes : List String
deriving Repr, DecidableEq

def QUARANTINE_THRESHOLD : ℚ := 300

/-- The snapshot dictionary returned by `check_node_health`. -/
structure NodeHealthSnapshot where
  not_ready_nodes : List String
  quarantined_nodes : List String
  total_nodes : ℕ
  healthy_nodes : ℕ
deriving Repr, DecidableEq

/-- One iteration of the node loop in `check_node_health`, carrying the
monitor state, the accumulated `not_ready_nodes`, and `healthy_count`.
The cluster-API patches inside `_quarantine_node` / `_unquarantine_node`
are assumed to succeed (their `except` arms merely skip the set update; no
claim depends on a failing patch). -/
def checkNodeStep (now : ℚ) (acc : NodeMonitorState × List String × ℕ) (n : NodeInfo) :
    NodeMonitorState × List String × ℕ :=
  let st := acc.1
  let notReady := acc.2.1
  let healthy := acc.2.2
  let next :=
    if nodeHealthy n then
      (({ unhealthyNodes := st.unhealthyNodes.filter (fun p => !(p.1 == n.name)),
          quarantinedNodes := st.quarantinedNodes.filter (fun q => !(q == n.name)) }
          : NodeMonitorState),
        notReady, healthy + 1)
    else
      (({ unhealthyNodes :=
            if (st.unhealthyNodes.find? (fun p => p.1 == n.name)).isSome then st.unhealthyNodes
            else st.unhealthyNodes ++ [(n.name, now)],
          quarantinedNodes := st.quarantinedNodes } : NodeMonitorState),
        notReady ++ [n.name], healthy)
  let st1 := next.1
  match st1.unhealthyNodes.find? (fun p => p.1 == n.name) with
  | some p =>
    if !nodeIsReady n && decide (now - p.2 > QUARANTINE_THRESHOLD)
        && !(st1.quarantinedNodes.contains n.name) then
      (({ unhealthyNodes := st1.unhealthyNodes,
          quarantinedNodes := st1.quarantinedNodes ++ [n.name] } : NodeMonitorState),
        next.2.1, next.2.2)
    else next
  | none => next

/-- `NodeMonitor.check_node_health`: `nodesRes` is the outcome of
`core_v1.list_node()`, with `Except.error ()` modelling the call raising
(which the source catches, returning the fixed all-zero snapshot). -/
def check_node_health (nodesRes : Except Unit (List NodeInfo)) (now : ℚ)
    (st : NodeMonitorState) : NodeHealthSnapshot × NodeMonitorState :=
  match nodesRes with
  | Except.error _ =>
    ({ not_ready_nodes := [], quarantined_nodes := [], total_nodes := 0, healthy_nodes := 0 }, st)
  | Except.ok nodes =>
    let r := nodes.foldl (checkNodeStep now) (st, [], 0)
    ({ not_ready_nodes := r.2.1, quarantined_nodes := r.1.quarantinedNodes,
       total_nodes := nodes.length, healthy_nodes := r.2.2 }, r.1)

/-- The node-health stage of `should_scale` (autoscaler.py lines 182–196):
`some (action?, reason)` when that stage returns out of `should_scale`,
`none` when control falls through to the backlog checks.  `capacityLoss`
is the value of `node_monitor.get_node_capacity_loss()`. -/
def nodeHealthStage (nh : NodeHealthSnapshot) (capacityLoss : ℚ) :
    Option (Option String × String) :=
  if nh.not_ready_nodes ≠ [] then
    if nh.healthy_nodes = 0 then some (none, "No healthy nodes")
    else if capacityLoss > NODE_CAPACITY_LOSS_THRESHOLD then some (some "up", "Node failure")
    else none
  else none

/-! ### Helper lemmas for severity monotonicity -/

theorem sevRank_le_CRITICAL (s : String) : sevRank s ≤ sevRank "CRITICAL" := by
  simp only [sevRank]; split_ifs <;> omega

theorem sevRank_le_upgrade (s : String) :
    sevRank s ≤ sevRank (if s = "INFO" then "WARNING" else s) := by
  by_cases h : s = "INFO" <;> simp [sevRank, h]

theorem memRule_mono (c : ℚ) (p : String × List String) :
    sevRank p.1 ≤ sevRank (memRule c p).1 ∧ ∃ t, (memRule c p).2 = p.2 ++ t := by
  unfold memRule
  split_ifs with h
  · exact ⟨sevRank_le_CRITICAL _, ⟨_, rfl⟩⟩
  · exact ⟨le_refl _, ⟨[], by simp⟩⟩

theorem errRule_mono (c : ℚ) (p : String × List String) :
    sevRank p.1 ≤ sevRank (errRule c p).1 ∧ ∃ t, (errRule c p).2 = p.2 ++ t := by
  unfold errRule
  split_ifs with h1 h2 h3
  · exact ⟨sevRank_le_CRITICAL _, ⟨_, rfl⟩⟩
  · exact ⟨by simp [sevRank, h3], ⟨_, rfl⟩⟩
  · exact ⟨le_refl _, ⟨_, rfl⟩⟩
  · exact ⟨le_refl _, ⟨[], by simp⟩⟩

theorem latRule_mono (c : ℚ) (p : String × List String) :
    sevRank p.1 ≤ sevRank (latRule c p).1 ∧ ∃ t, (latRule c p).2 = p.2 ++ t := by
  unfold latRule
  split_ifs with h1 h2
  · exact ⟨by simp [sevRank, h2], ⟨_, rfl⟩⟩
  · exact ⟨le_refl _, ⟨_, rfl⟩⟩
  · exact ⟨le_refl _, ⟨[], by simp⟩⟩

/-- C3: as the classifier applies its rules in source order (cpu, memory,
error_rate, net_latency_ms), the severity is monotonically non-decreasing
under `INFO < WARNING < CRITICAL` — no rule replaces an already-assigned
severity by a strictly lower one — and each rule only appends its reasons,
so reasons accumulate in that rule order. -/
theorem classify_severity_monotone (m : Metrics) :
    (sevRank "INFO" ≤
        sevRank (cpuRule (getNum m.cpu) ("INFO", [])).1 ∧
      sevRank (cpuRule (getNum m.cpu) ("INFO", [])).1 ≤
        sevRank (memRule (getNum m.memory) (cpuRule (getNum m.cpu) ("INFO", []))).1 ∧
      sevRank (memRule (getNum m.memory) (cpuRule (getNum m.cpu) ("INFO", []))).1 ≤
        sevRank (errRule (getNum m.error_rate)
          (memRule (getNum m.memory) (cpuRule (getNum m.cpu) ("INFO", [])))).1 ∧
      sevRank (errRule (getNum m.error_rate)
          (memRule (getNum m.memory) (cpuRule (getNum m.cpu) ("INFO", [])))).1 ≤
        sevRank (classifyMetricsPair m).1) ∧
    (∃ t1 t2 t3 t4,
      (cpuRule (getNum m.cpu) ("INFO", [])).2 = t1 ∧
      (memRule (getNum m.memory) (cpuRule (getNum m.cpu) ("INFO", []))).2 = t1 ++ t2 ∧
      (errRule (getNum m.error_rate)
        (memRule (getNum m.memory) (cpuRule (getNum m.cpu) ("INFO", [])))).2 =
          t1 ++ t2 ++ t3 ∧
      (classifyMetricsPair m).2 = t1 ++ t2 ++ t3 ++ t4) := by
  obtain ⟨hm, t2, ht2⟩ := memRule_mono (getNum m.memory) (cpuRule (getNum m.cpu) ("INFO", []))
  obtain ⟨he, t3, ht3⟩ := errRule_mono (getNum m.error_rate)
    (memRule (getNum m.memory) (cpuRule (getNum m.cpu) ("INFO", [])))
  obtain ⟨hl, t4, ht4⟩ := latRule_mono (getNum m.net_latency_ms)
    (errRule (getNum m.error_rate)
      (memRule (getNum m.memory) (cpuRule (getNum m.cpu) ("INFO", []))))
  refine ⟨⟨by simp [sevRank], hm, he, hl⟩,
    ⟨(cpuRule (getNum m.cpu) ("INFO", [])).2, t2, t3, t4, rfl, ht2, ?_, ?_⟩⟩
  · rw [ht3, ht2]
  · rw [show classifyMetricsPair m = latRule (getNum m.net_latency_ms)
      (errRule (getNum m.error_rate)
        (memRule (getNum m.memory) (cpuRule (getNum m.cpu) ("INFO", [])))) from rfl,
      ht4, ht3, ht2]

/-! ### Claim C6 — totality of the classifier -/

/-- C6 counterexample: on a payload with neither a `metrics` key nor a
`log` key, `classify_event` does not return an event — `"CRITICAL" in
None` raises a `TypeError` (modelled as `none`), so the classifier is not
total. -/
theorem classify_event_no_log_raises :
    classify_event { node_id := none, metrics := none, log := none } = none := rfl

/-- C6 amended: `classify_event` returns an event for every payload that
carries a `metrics` key, and for every payload without `metrics` but with
a `log` string it returns a `log_event` whose severity is `CRITICAL` iff
the substring `"CRITICAL"` occurs in the log text and `ERROR` otherwise;
when both `metrics` and `log` are absent it raises instead of returning. -/
theorem classify_event_total_amended (p : Payload) :
    (∀ m, p.metrics = some m → (classify_event p).isSome = true) ∧
    (∀ l, p.metrics = none → p.log = some l →
      classify_event p = some
        { source := "aggregator", node_id := p.node_id.getD "unknown",
          event_type := "log_event",
          severity := if strContains l "CRITICAL" then "CRITICAL" else "ERROR",
          reasons := [], metrics := none, log := some l }) ∧
    (p.metrics = none → p.log = none → classify_event p = none) := by
  refine ⟨?_, ?_, ?_⟩
  · intro m hm; simp [classify_event, hm]
  · intro l hm hl; simp [classify_event, hm, hl]
  · intro hm hl; simp [classify_event, hm, hl]

/-- Witness for C6's amended theorem at concrete payloads. -/
theorem classify_event_total_amended_witness :
    classify_event { node_id := none, metrics := none, log := some "disk CRITICAL fail" } =
      some { source := "aggregator", node_id := "unknown", event_type := "log_event",
             severity := "CRITICAL",
             reasons := [], metrics := none, log := some "disk CRITICAL fail" } :=
  (classify_event_total_amended
    { node_id := none, metrics := none, log := some "disk CRITICAL fail" }).2.1
    "disk CRITICAL fail" rfl rfl

/-! ### Claim C8 — memory quantity parser suffixes -/

/-- C8 counterexample: the quantity parser does not accept the suffix `K`:
`parse_memory "1K"` falls through to `int("1K")`, which raises
`ValueError` rather than returning a byte count. -/
theorem parse_memory_K_raises : parse_memory "1K" = none := by decide

/-- C8 amended: the parser accepts the binary suffixes `Ki`, `Mi`, `Gi`
(with decimal coefficients) and bare integer byte counts, returning exact
byte values, but the decimal suffixes `K`, `M`, `G` all raise. -/
theorem parse_memory_suffixes_amended :
    parse_memory "1Ki" = some 1024 ∧
    parse_memory "2Mi" = some (2 * 1024 * 1024) ∧
    parse_memory "1.5Gi" = some 1610612736 ∧
    parse_memory "0.5Mi" = some (512 * 1024) ∧
    parse_memory "512" = some 512 ∧
    parse_memory "1K" = none ∧
    parse_memory "1M" = none ∧
    parse_memory "1G" = none := by
  refine ⟨?_, ?_, ?_, ?_, by decide, by decide, by decide, by decide⟩
  · show some ((⌊((1 : ℕ) : ℚ) * 1024⌋).toNat) = some 1024
    norm_num
    rfl
  · show some ((⌊((2 : ℕ) : ℚ) * (1024 * 1024)⌋).toNat) = some (2 * 1024 * 1024)
    norm_num
    rfl
  · show some ((⌊(((1 : ℕ) : ℚ) + ((5 : ℕ) : ℚ) / 10 ^ 1) *
        (1024 * 1024 * 1024)⌋).toNat) = some 1610612736
    norm_num
    rfl
  · show some ((⌊(((0 : ℕ) : ℚ) + ((5 : ℕ) : ℚ) / 10 ^ 1) *
        (1024 * 1024)⌋).toNat) = some (512 * 1024)
    norm_num
    rfl

/-! ### Claim C9 — node-health fail-open snapshot -/

/-- C9: when listing cluster nodes raises, `check_node_health` returns the
fixed snapshot `{not_ready: [], quarantined: [], total: 0, healthy: 0}`
and leaves the monitor's unhealthy/quarantined records untouched; an empty
cluster yields the same monitor state and the same values of every
snapshot field the callers read (`not_ready_nodes`, `healthy_nodes`,
`total_nodes`); and the node-health stage of `should_scale` falls through
on that snapshot — it produces neither the `"No healthy nodes"` hold nor
the `"Node failure"` scale-up. -/
theorem check_node_health_error_failopen (st : NodeMonitorState) (now now' : ℚ) (loss : ℚ) :
    check_node_health (Except.error ()) now st = (⟨[], [], 0, 0⟩, st) ∧
    (check_node_health (Except.ok []) now' st).2 = st ∧
    (check_node_health (Except.ok []) now' st).1.not_ready_nodes = [] ∧
    (check_node_health (Except.ok []) now' st).1.healthy_nodes = 0 ∧
    (check_node_health (Except.ok []) now' st).1.total_nodes = 0 ∧
    nodeHealthStage ⟨[], [], 0, 0⟩ loss = none := by
  refine ⟨rfl, rfl, rfl, rfl, rfl, ?_⟩
  simp [nodeHealthStage]

/-! ### Claims C1/C4/C5/C10 — execute_scale -/

theorem pyOrMinReplicas_pos (r : Option ℕ) : 1 ≤ pyOrMinReplicas r := by
  cases r with
  | none => simp [pyOrMinReplicas, MIN_REPLICAS]
  | some n =>
    simp only [pyOrMinReplicas, MIN_REPLICAS]
    split_ifs with h
    · omega
    · omega

/-- C1 amended (bounds of the patched replica count): whenever
`execute_scale` patches (returns `true`), the patched value `n` satisfies
`n ≥ R_min = 2`; on `up` it equals
`min(R_max, current + (max(1, ⌊current·(m−1)⌋) if m>1 else 1))` and hence
lies in `[2, 8]`; on `down` it equals `max(R_min, current − 1)`, which is
`≤ R_max = 8` only when the current count read from the deployment is at
most 9 — a `down` from a deployment manually set above 9 patches a value
outside `[R_min, R_max]`. -/
theorem execute_scale_patched_bounds (action : String) (bypass : Bool)
    (multiplier now : ℚ) (st st' : AutoscalerState)
    (h : execute_scale action bypass multiplier now st = (true, st')) :
    ∃ n, st'.replicas = some n ∧ st'.lastScaleTime = some now ∧
      MIN_REPLICAS ≤ n ∧
      (action = "up" →
        n = min (pyOrMinReplicas st.replicas +
          (if multiplier > 1 then
            max 1 (⌊(pyOrMinReplicas st.replicas : ℚ) * (multiplier - 1)⌋.toNat)
           else 1)) MAX_REPLICAS ∧ n ≤ MAX_REPLICAS) ∧
      (action ≠ "up" →
        n = max (pyOrMinReplicas st.replicas - 1) MIN_REPLICAS ∧
        (pyOrMinReplicas st.replicas ≤ MAX_REPLICAS + 1 → n ≤ MAX_REPLICAS)) := by
  have hpos : 1 ≤ pyOrMinReplicas st.replicas := pyOrMinReplicas_pos st.replicas
  simp only [execute_scale] at h
  split_ifs at h with hcd hup hm hne1 hne2 hne3
  · simp at h
  · simp at h
  · have hst := ((Prod.mk.injEq _ _ _ _).mp h).2
    subst hst
    refine ⟨_, rfl, rfl, ?_, fun _ => ⟨by rw [if_pos hm], ?_⟩, fun hne => absurd hup hne⟩
    · simp only [MIN_REPLICAS, MAX_REPLICAS]
      omega
    · simp only [MAX_REPLICAS]
      omega
  · simp at h
  · have hst := ((Prod.mk.injEq _ _ _ _).mp h).2
    subst hst
    refine ⟨_, rfl, rfl, ?_, fun _ => ⟨by rw [if_neg hm], ?_⟩, fun hne => absurd hup hne⟩
    · simp only [MIN_REPLICAS, MAX_REPLICAS]
      omega
    · simp only [MAX_REPLICAS]
      omega
  · simp at h
  · have hst := ((Prod.mk.injEq _ _ _ _).mp h).2
    subst hst
    refine ⟨_, rfl, rfl, ?_, fun habs => absurd habs hup, fun _ => ⟨rfl, fun hle => ?_⟩⟩
    · simp only [MIN_REPLICAS]
      omega
    · simp only [MIN_REPLICAS, MAX_REPLICAS] at *
      omega

/-- Witness for C1's amended theorem: a concrete successful scale-up
(2 → 3) satisfying all the stated bounds. -/
theorem execute_scale_patched_bounds_witness :
    ∃ n, (AutoscalerState.mk (some 0) (some 3)).replicas = some n ∧
      (AutoscalerState.mk (some 0) (some 3)).lastScaleTime = some 0 ∧
      MIN_REPLICAS ≤ n ∧
      ("up" = "up" →
        n = min (pyOrMinReplicas (some 2) +
          (if (1 : ℚ) > 1 then
            max 1 (⌊(pyOrMinReplicas (some 2) : ℚ) * ((1 : ℚ) - 1)⌋.toNat)
           else 1)) MAX_REPLICAS ∧ n ≤ MAX_REPLICAS) ∧
      ("up" ≠ "up" →
        n = max (pyOrMinReplicas (some 2) - 1) MIN_REPLICAS ∧
        (pyOrMinReplicas (some 2) ≤ MAX_REPLICAS + 1 → n ≤ MAX_REPLICAS)) :=
  execute_scale_patched_bounds "up" true 1 0 ⟨none, some 2⟩ ⟨some 0, some 3⟩ (by
    norm_num [execute_scale, cooldownRejects, pyOrMinReplicas, MIN_REPLICAS, MAX_REPLICAS])

/-- C1 counterexample: with the deployment manually at 10 replicas, a
`down` action patches 9, which is outside `[R_min, R_max] = [2, 8]`. -/
theorem execute_scale_down_escapes_bounds :
    execute_scale "down" true 1 0 ⟨none, some 10⟩ = (true, ⟨some 0, some 9⟩) ∧
    ¬(9 ≤ MAX_REPLICAS) := by
  constructor
  · norm_num [execute_scale, cooldownRejects, pyOrMinReplicas, MIN_REPLICAS, MAX_REPLICAS]
    decide
  · decide

theorem execute_scale_success_lastTime (a : String) (b : Bool) (m now : ℚ)
    (st st' : AutoscalerState) (h : execute_scale a b m now st = (true, st')) :
    st'.lastScaleTime = some now := by
  simp only [execute_scale] at h
  split_ifs at h <;> simp only [Prod.mk.injEq] at h <;>
    first
      | exact absurd h.1 (by decide)
      | (obtain ⟨-, h2⟩ := h; subst h2; rfl)

/-- C4: after an `execute_scale` call that succeeds (patches and returns
`True`) at instant `t`, every call with `bypass_cooldown = false` starting
at any `t'` with `t ≤ t'` and `t' − t < C_replica = 60` is rejected by the
cooldown guard and leaves the state — in particular the replica count —
unchanged; hence only `bypass_cooldown = true` calls can succeed inside
the window. -/
theorem execute_scale_cooldown_blocks (a : String) (b : Bool) (m t : ℚ)
    (st st' : AutoscalerState) (hsucc : execute_scale a b m t st = (true, st'))
    (a' : String) (m' t' : ℚ) (_hle : t ≤ t') (hlt : t' - t < COOLDOWN_SECONDS) :
    execute_scale a' false m' t' st' = (false, st') := by
  have hlast : st'.lastScaleTime = some t :=
    execute_scale_success_lastTime a b m t st st' hsucc
  have hcd : cooldownRejects st'.lastScaleTime false t' = true := by
    rw [hlast]
    simp only [cooldownRejects, Bool.not_false, Bool.true_and]
    exact decide_eq_true hlt
  simp [execute_scale, hcd]

/-- Witness for C4: the cooldown concretely blocks a follow-up call 30 s
after a successful scale. -/
theorem execute_scale_cooldown_blocks_witness :
    execute_scale "down" false 1 30 ⟨some 0, some 3⟩ = (false, ⟨some 0, some 3⟩) :=
  execute_scale_cooldown_blocks "up" true 1 0 ⟨none, some 2⟩ ⟨some 0, some 3⟩
    (by norm_num [execute_scale, cooldownRejects, pyOrMinReplicas, MIN_REPLICAS, MAX_REPLICAS])
    "down" 1 30 (by norm_num) (by norm_num [COOLDOWN_SECONDS])

/-- Evaluation of a bypassing `up` call with multiplier 1 from `k ≥ 1`
replicas: it patches `min(k+1, R_max)` unless that equals `k`. -/
theorem execute_scale_up_one (k : ℕ) (hk : 1 ≤ k) (t : ℚ) (l : Option ℚ) :
    execute_scale "up" true 1 t ⟨l, some k⟩ =
      if min (k + 1) MAX_REPLICAS = k then (false, ⟨l, some k⟩)
      else (true, ⟨some t, some (min (k + 1) MAX_REPLICAS)⟩) := by
  have hcd : cooldownRejects (AutoscalerState.mk l (some k)).lastScaleTime true t = false := by
    cases l <;> simp [cooldownRejects]
  have hmin : pyOrMinReplicas (some k) = k := by
    simp only [pyOrMinReplicas]
    rw [if_neg (by omega)]
  simp only [execute_scale, hcd, Bool.false_eq_true, if_false, hmin]
  norm_num

/-- C5 counterexample: two CRITICAL-event scale-ups
(`execute_scale("up", bypass_cooldown=True)`) half a second apart,
starting from 5 replicas (`< R_max`), drive the count 5 → 6 → 7: two
additional replicas, not at most one — the second call re-reads 6 and
patches 7, and the `new == current` guard never fires. -/
theorem double_critical_scale_counterexample :
    execute_scale "up" true 1 0 ⟨none, some 5⟩ = (true, ⟨some 0, some 6⟩) ∧
    execute_scale "up" true 1 (1/2) ⟨some 0, some 6⟩ = (true, ⟨some (1/2), some 7⟩) ∧
    5 < MAX_REPLICAS ∧ ¬(7 - 5 ≤ 1) := by
  refine ⟨?_, ?_, by decide, by decide⟩ <;>
    · norm_num [execute_scale, cooldownRejects, pyOrMinReplicas, MIN_REPLICAS, MAX_REPLICAS]
      try decide

/-- C5 amended: two sequentially processed CRITICAL-event scale-ups from
`current = c` with `1 ≤ c < R_max` drive the replica count to
`min(c+2, R_max)`; the `new == current` guard absorbs the duplicate —
limiting the pair to at most one additional replica — exactly when
`c = R_max − 1`; for any smaller `c` the second call also succeeds and two
replicas are added. -/
theorem double_critical_scale_amended (c : ℕ) (hc1 : 1 ≤ c) (hc : c < MAX_REPLICAS)
    (t0 t1 : ℚ) (lst : Option ℚ) :
    execute_scale "up" true 1 t0 ⟨lst, some c⟩ = (true, ⟨some t0, some (c + 1)⟩) ∧
    (execute_scale "up" true 1 t1 ⟨some t0, some (c + 1)⟩).2.replicas =
      some (min (c + 2) MAX_REPLICAS) ∧
    ((execute_scale "up" true 1 t1 ⟨some t0, some (c + 1)⟩).1 = false ↔
      c = MAX_REPLICAS - 1) := by
  have h1 := execute_scale_up_one c hc1 t0 lst
  have hmin1 : min (c + 1) MAX_REPLICAS = c + 1 := by
    simp only [MAX_REPLICAS] at hc ⊢
    omega
  rw [hmin1, if_neg (by omega)] at h1
  have h2 := execute_scale_up_one (c + 1) (by omega) t1 (some t0)
  by_cases htop : c = MAX_REPLICAS - 1
  · have hcond : min (c + 1 + 1) MAX_REPLICAS = c + 1 := by
      simp only [MAX_REPLICAS] at htop ⊢
      omega
    rw [if_pos hcond] at h2
    refine ⟨h1, ?_, ?_⟩
    · rw [h2]
      simp only [MAX_REPLICAS] at htop ⊢
      norm_num
      omega
    · rw [h2]
      simpa using htop
  · have hcond : ¬ (min (c + 1 + 1) MAX_REPLICAS = c + 1) := by
      simp only [MAX_REPLICAS] at hc htop ⊢
      omega
    rw [if_neg hcond] at h2
    refine ⟨h1, ?_, ?_⟩
    · rw [h2]
    · rw [h2]
      simpa using htop

/-- Witness for C5's amended theorem at `c = 5`, the calls half a second
apart. -/
theorem double_critical_scale_amended_witness :
    execute_scale "up" true 1 0 ⟨none, some 5⟩ = (true, ⟨some 0, some (5 + 1)⟩) ∧
    (execute_scale "up" true 1 (1/2) ⟨some 0, some (5 + 1)⟩).2.replicas =
      some (min (5 + 2) MAX_REPLICAS) ∧
    ((execute_scale "up" true 1 (1/2) ⟨some 0, some (5 + 1)⟩).1 = false ↔
      5 = MAX_REPLICAS - 1) :=
  double_critical_scale_amended 5 (by decide) (by decide) 0 (1/2) none

/-- C10: `execute_scale` reads the current count as
`dep.spec.replicas or MIN_REPLICAS`, so a deployment whose `replicas`
field is unset or 0 is treated as `R_min = 2`; from such a deployment an
`up` action with multiplier 1 patches the count directly to 3, and a
`down` action is rejected because `new == current`, leaving the cluster
and the ledger unchanged. -/
theorem execute_scale_default_replicas (r : Option ℕ) (hr : r = none ∨ r = some 0)
    (t : ℚ) (b : Bool) :
    pyOrMinReplicas r = MIN_REPLICAS ∧
    execute_scale "up" b 1 t ⟨none, r⟩ = (true, ⟨some t, some 3⟩) ∧
    execute_scale "down" b 1 t ⟨none, r⟩ = (false, ⟨none, r⟩) := by
  have hmin : pyOrMinReplicas r = 2 := by
    rcases hr with h | h <;> subst h <;> simp [pyOrMinReplicas, MIN_REPLICAS]
  refine ⟨hmin, ?_, ?_⟩ <;>
    · simp only [execute_scale, cooldownRejects, hmin]
      norm_num [MIN_REPLICAS, MAX_REPLICAS]
      try decide

/-- Witness for C10 with the replicas field absent. -/
theorem execute_scale_default_replicas_witness :
    pyOrMinReplicas none = MIN_REPLICAS ∧
    execute_scale "up" false 1 0 ⟨none, none⟩ = (true, ⟨some 0, some 3⟩) ∧
    execute_scale "down" false 1 0 ⟨none, none⟩ = (false, ⟨none, none⟩) :=
  execute_scale_default_replicas none (Or.inl rfl) 0 false

/-! ### Claim C7 — percentile monotonicity -/

theorem le_roundHalfEven (q : ℚ) : ⌊q⌋ ≤ roundHalfEven q := by
  unfold roundHalfEven
  split_ifs <;> omega

theorem roundHalfEven_le (q : ℚ) : roundHalfEven q ≤ ⌊q⌋ + 1 := by
  unfold roundHalfEven
  split_ifs <;> omega

theorem roundHalfEven_mono {a b : ℚ} (h : a ≤ b) : roundHalfEven a ≤ roundHalfEven b := by
  rcases lt_or_eq_of_le (Int.floor_le_floor h) with hlt | heq
  · calc roundHalfEven a ≤ ⌊a⌋ + 1 := roundHalfEven_le a
      _ ≤ ⌊b⌋ := by omega
      _ ≤ roundHalfEven b := le_roundHalfEven b
  · have hfr : Int.fract a ≤ Int.fract b := by
      rw [Int.fract, Int.fract, heq]
      exact sub_le_sub_right h _
    unfold roundHalfEven
    rw [heq]
    split_ifs <;> first | omega | linarith

theorem round2_mono {a b : ℚ} (h : a ≤ b) : round2 a ≤ round2 b := by
  unfold round2
  have h100 : a * 100 ≤ b * 100 := by linarith
  have hle := roundHalfEven_mono h100
  have hcast : ((roundHalfEven (a * 100) : ℚ)) ≤ (roundHalfEven (b * 100) : ℚ) := by
    exact_mod_cast hle
  linarith

theorem sorted_getD_mono {l : List ℚ} (hs : List.Sorted (· ≤ ·) l) {i j : ℕ}
    (hij : i ≤ j) (hj : j < l.length) : l.getD i 0 ≤ l.getD j 0 := by
  have hi : i < l.length := lt_of_le_of_lt hij hj
  rw [List.getD_eq_getElem l 0 hi, List.getD_eq_getElem l 0 hj]
  have hrel := List.Sorted.rel_get_of_le hs
    (a := (⟨i, hi⟩ : Fin l.length)) (b := (⟨j, hj⟩ : Fin l.length))
    (Fin.mk_le_mk.mpr hij)
  simpa using hrel

theorem calculatePercentile_mono (values : List ℚ) (hne : values ≠ []) {M N : ℕ}
    (hMN : M ≤ N) :
    calculatePercentile values M ≤ calculatePercentile values N := by
  unfold calculatePercentile
  rw [if_neg hne, if_neg hne]
  have hsort : List.Sorted (· ≤ ·) (values.insertionSort (· ≤ ·)) :=
    List.sorted_insertionSort _ values
  have hlen : (values.insertionSort (· ≤ ·)).length = values.length :=
    (List.perm_insertionSort _ values).length_eq
  have hpos : 0 < values.length := List.length_pos.mpr hne
  apply sorted_getD_mono hsort
  · exact min_le_min (Nat.div_le_div_right (Nat.mul_le_mul_left _ hMN)) le_rfl
  · rw [hlen]
    omega

/-- C7: over the same latency series, the percentile function is monotone
in the percentile — for every pair `N ≥ M` (in particular any pair drawn
from `{90, 95, 99}`) the sorted-and-clamped index read gives
`pN ≥ pM` — and consequently the `latency_p90/95/99` fields computed by
`get_stats` on any non-empty window satisfy `p90 ≤ p95 ≤ p99`. -/
theorem getStats_percentiles_monotone (data : List Sample) (hne : data ≠ []) :
    (∀ M N : ℕ, M ≤ N →
      calculatePercentile (data.map Sample.latency) M ≤
        calculatePercentile (data.map Sample.latency) N) ∧
    (∀ st, getStats data = some st →
      st.latency_p90 ≤ st.latency_p95 ∧ st.latency_p95 ≤ st.latency_p99) := by
  have hmapne : data.map Sample.latency ≠ [] := by
    simpa using hne
  constructor
  · intro M N hMN
    exact calculatePercentile_mono _ hmapne hMN
  · intro st hst
    rw [getStats, if_neg hne] at hst
    injection hst with hst
    subst hst
    constructor
    · exact round2_mono (calculatePercentile_mono _ hmapne (by norm_num))
    · exact round2_mono (calculatePercentile_mono _ hmapne (by norm_num))

/-- Witness for C7 on a concrete one-sample window. -/
theorem getStats_percentiles_monotone_witness :
    (∀ M N : ℕ, M ≤ N →
      calculatePercentile (([⟨50, 1, 300, 1⟩] : List Sample).map Sample.latency) M ≤
        calculatePercentile (([⟨50, 1, 300, 1⟩] : List Sample).map Sample.latency) N) ∧
    (∀ st, getStats [⟨50, 1, 300, 1⟩] = some st →
      st.latency_p90 ≤ st.latency_p95 ∧ st.latency_p95 ≤ st.latency_p99) :=
  getStats_percentiles_monotone [⟨50, 1, 300, 1⟩] (by simp)

/-! ### Claim C2 — memory-limit adjustment -/

/-- Evaluation of `adjust_memory_limits` once the parse of the current
limit is known. -/
theorem adjust_memory_limits_eval (cur : Option String) (b : ℕ)
    (hb : parse_memory (limitOrDefault cur) = some b) :
    adjust_memory_limits cur =
      if b ≥ 2 * 1024 * 1024 * 1024 then
        some (false, limitOrDefault cur, limitOrDefault cur)
      else
        some (true, limitOrDefault cur,
          format_memory (if 3 * b / 2 > 2 * 1024 * 1024 * 1024 then
            2 * 1024 * 1024 * 1024 else 3 * b / 2)) := by
  simp only [adjust_memory_limits]
  rw [hb]

/-- C2 counterexample: with the first container's limit at `64Mi`,
`adjust_memory_limits` patches `96Mi` into both `limits.memory` and
`requests.memory` — the multiplied value is not clamped below to `128Mi`,
so the limit after the adjustment lies outside `[128Mi, 2Gi]`. -/
theorem adjust_memory_below_min :
    adjust_memory_limits (some "64Mi") = some (true, "64Mi", "96Mi") ∧
    parse_memory "96Mi" = some (96 * 1024 * 1024) ∧
    (96 * 1024 * 1024 : ℕ) < 128 * 1024 * 1024 := by
  have h64 : parse_memory (limitOrDefault (some "64Mi")) = some 67108864 := by
    show some ((⌊((64 : ℕ) : ℚ) * (1024 * 1024)⌋).toNat) = some 67108864
    norm_num
    try rfl
  refine ⟨?_, ?_, by norm_num⟩
  · rw [adjust_memory_limits_eval (some "64Mi") 67108864 h64]
    norm_num
    try decide
  · show some ((⌊((96 : ℕ) : ℚ) * (1024 * 1024)⌋).toNat) = some (96 * 1024 * 1024)
    norm_num
    try rfl

/-- C2 amended: whenever the current limit parses to `b` bytes with
`b < 2Gi`, `adjust_memory_limits` patches both `limits.memory` and
`requests.memory` to `format_memory(min(⌊b·1.5⌋, 2Gi))` — the value is
multiplied by 1.5, capped **above** at `2Gi` and rounded down to a whole
`Ki/Mi/Gi` unit by the formatter, but it is *not* clamped below at
`128Mi`; the byte count never exceeds `2Gi`.  (When `b ≥ 2Gi` the call is
a no-op returning `(current, current)`.) -/
theorem adjust_memory_amended (cur : Option String) (b : ℕ)
    (hb : parse_memory (limitOrDefault cur) = some b)
    (hlt : b < 2 * 1024 * 1024 * 1024) :
    adjust_memory_limits cur =
      some (true, limitOrDefault cur,
        format_memory (min (3 * b / 2) (2 * 1024 * 1024 * 1024))) ∧
    min (3 * b / 2) (2 * 1024 * 1024 * 1024) ≤ 2 * 1024 * 1024 * 1024 := by
  have hmin : (if 3 * b / 2 > 2 * 1024 * 1024 * 1024 then 2 * 1024 * 1024 * 1024
      else 3 * b / 2) = min (3 * b / 2) (2 * 1024 * 1024 * 1024) := by
    split_ifs with h <;> omega
  constructor
  · rw [adjust_memory_limits_eval cur b hb, if_neg (by omega), hmin]
  · exact min_le_right _ _

/-- Witness for C2's amended theorem at the default `256Mi` limit
(patched to `384Mi`). -/
theorem adjust_memory_amended_witness :
    (adjust_memory_limits (some "256Mi") =
      some (true, limitOrDefault (some "256Mi"),
        format_memory (min (3 * 268435456 / 2) (2 * 1024 * 1024 * 1024))) ∧
    min (3 * 268435456 / 2) (2 * 1024 * 1024 * 1024) ≤ 2 * 1024 * 1024 * 1024) :=
  adjust_memory_amended (some "256Mi") 268435456 (by
    show some ((⌊((256 : ℕ) : ℚ) * (1024 * 1024)⌋).toNat) = some 268435456
    norm_num
    try rfl) (by norm_num)
